import Mathlib

set_option maxHeartbeats 1000000

/- Shallow embedding of mesh_dashboard.py, a Meshtastic-mesh to MQTT bridge
   with Home Assistant auto-discovery.  Pure Python functions become Lean
   functions; the mutable global maps become an explicit `Reg` record threaded
   through the operations; MQTT publishes, mesh sends and timer manipulations
   become explicit event lists.  All text the program compares is ASCII, so
   Python str.lower / str.title are modelled by their ASCII restrictions. -/

/-- ASCII lower-casing of one character (Python str.lower restricted to ASCII). -/
def lowerChar (c : Char) : Char :=
  if 'A' ≤ c ∧ c ≤ 'Z' then Char.ofNat (c.toNat + 32) else c

/-- ASCII upper-casing of one character. -/
def upperChar (c : Char) : Char :=
  if 'a' ≤ c ∧ c ≤ 'z' then Char.ofNat (c.toNat - 32) else c

def lowerL (cs : List Char) : List Char := cs.map lowerChar

def lowerS (s : String) : String := ⟨lowerL s.data⟩

/-- Python single-character str.replace: `s.replace(a, b)` for one-char `a`, `b`. -/
def replaceChar (a b : Char) (cs : List Char) : List Char :=
  cs.map (fun c => if c = a then b else c)

/-- Python str.replace with the empty string as replacement: `s.replace(a, "")`. -/
def dropChar (a : Char) (cs : List Char) : List Char :=
  cs.filter (fun c => ¬ c = a)

/-- Does `pat` occur in `cs` starting exactly at index `i`? -/
def matchesAt (cs pat : List Char) (i : Nat) : Bool :=
  decide ((cs.drop i).take pat.length = pat)

/-- Python substring containment: `needle in hay`. -/
def containsSub (needle hay : List Char) : Bool :=
  (List.range (hay.length + 1)).any (fun i => matchesAt hay needle i)

/-- Python str.startswith. -/
def startsWithS (s pre : String) : Bool := matchesAt s.data pre.data 0

/-- Python str.split(sep) for a one-character separator. -/
def splitOnChar (sep : Char) : List Char → List (List Char)
  | [] => [[]]
  | c :: rest =>
      let r := splitOnChar sep rest
      if c = sep then [] :: r
      else match r with
        | h :: t => (c :: h) :: t
        | [] => [[c]]

def splitSlash (s : String) : List String :=
  (splitOnChar '/' s.data).map (fun l => (⟨l⟩ : String))

/-- Regex word character (`\w` over the ASCII strings the bridge handles). -/
def isWordChar (c : Char) : Bool :=
  ('a' ≤ c ∧ c ≤ 'z') ∨ ('A' ≤ c ∧ c ≤ 'Z') ∨ ('0' ≤ c ∧ c ≤ '9') ∨ c = '_'

def wordAt (cs : List Char) (i : Nat) : Bool :=
  match cs.get? i with
  | some c => isWordChar c
  | none => false

/-- Regex `\b` holds between positions `i-1` and `i` (out of range = non-word). -/
def boundaryAt (cs : List Char) (i : Nat) : Bool :=
  (match i with
   | 0 => false
   | j + 1 => wordAt cs j) != wordAt cs i

/-- `re.search(rf'\b{re.escape(pat)}\b', text)` for a literal pattern `pat`:
some position carries the pattern with word boundaries on both sides. -/
def wordBoundaryMatch (pat text : List Char) : Bool :=
  (List.range (text.length + 1)).any
    (fun i => matchesAt text pat i && boundaryAt text i && boundaryAt text (i + pat.length))

def isDigitCh (c : Char) : Bool := '0' ≤ c ∧ c ≤ '9'

/-- Regex `\s` (ASCII whitespace). -/
def isSpaceCh (c : Char) : Bool :=
  c = ' ' ∨ c = '\t' ∨ c = '\n' ∨ c = '\r' ∨ c = '\x0b' ∨ c = '\x0c'

/-- One attempt of `re.search(rf'\b{re.escape(pat)}\s*([-]?\d+\.?\d*)', text)`
at start position `i`: on success, the text captured by group 1.
The regex pieces `\s*`, `\d+`, `\.?`, `\d*` are over disjoint character classes
followed by nothing, so maximal munch is exactly the backtracking semantics. -/
def numCaptureAt (pat text : List Char) (i : Nat) : Option (List Char) :=
  if boundaryAt text i && matchesAt text pat i then
    let rest := (text.drop (i + pat.length)).dropWhile isSpaceCh
    let (sign, rest1) :=
      match rest with
      | '-' :: r => ([('-' : Char)], r)
      | r => (([] : List Char), r)
    let intPart := rest1.takeWhile isDigitCh
    if intPart = [] then none
    else
      match rest1.drop intPart.length with
      | '.' :: r3 => some (sign ++ intPart ++ '.' :: r3.takeWhile isDigitCh)
      | _ => some (sign ++ intPart)
  else none

/-- `re.search`: the capture from the leftmost position where the regex matches. -/
def numericSearch (pat text : List Char) : Option (List Char) :=
  (List.range (text.length + 1)).findSome? (numCaptureAt pat text)

def digitsToNat (cs : List Char) : Nat :=
  cs.foldl (fun n c => 10 * n + (c.toNat - '0'.toNat)) 0

/-- Python float() on a capture of shape `[-]?\d+(\.\d*)?`, as an exact rational. -/
def ratOfDecimal (cs : List Char) : ℚ :=
  let (neg, cs1) :=
    match cs with
    | '-' :: r => (true, r)
    | r => (false, r)
  let ip := cs1.takeWhile isDigitCh
  let fp :=
    match cs1.drop ip.length with
    | '.' :: r => r.takeWhile isDigitCh
    | _ => ([] : List Char)
  let v : ℚ := (digitsToNat ip : ℚ) + (digitsToNat fp : ℚ) / ((10 : ℚ) ^ fp.length)
  if neg then -v else v

/-- Embedded Python values, as the telemetry decoder sees them. -/
inductive Py
  | dict (entries : List (String × Py))
  | str (s : String)
  | num (q : ℚ)
  | bool (b : Bool)
  | pynone
  | list (xs : List Py)

/-- Python truthiness test `not raw` (negated). -/
def Py.isFalsy : Py → Bool
  | .dict d => d.isEmpty
  | .str s => decide (s = "")
  | .num q => decide (q = 0)
  | .bool b => !b
  | .pynone => true
  | .list xs => xs.isEmpty

/-- `raw.replace("\n", " ").replace("'", '"')` from parse_telemetry_raw. -/
def normalizeRaw (s : String) : String :=
  ⟨replaceChar '\'' '"' (replaceChar '\n' ' ' s.data)⟩

/-- parse_telemetry_raw (mesh_dashboard.py lines 324-338).  `json.loads` and
`ast.literal_eval` are Python-stdlib collaborators outside src/, modelled as
parameters returning `none` exactly when the Python call raises; totality of
this Lean function is the source contract that the decoder never raises. -/
def parse_telemetry_raw (jsonLoads literalEval : String → Option Py) (raw : Py) : Py :=
  if raw.isFalsy then Py.dict []
  else
    match raw with
    | Py.dict d => Py.dict d
    | Py.str s =>
        (match jsonLoads s with
         | some v => v
         | none =>
             match literalEval s with
             | some v => v
             | none =>
                 match jsonLoads (normalizeRaw s) with
                 | some v => v
                 | none => Py.dict [])
    | _ => Py.dict []

/-- First successful alternative of an ordered list of attempts. -/
def firstSome {α : Type} : List (Option α) → Option α
  | [] => none
  | some a :: _ => some a
  | none :: rest => firstSome rest

/-- Spec-side (for the refinement comparison of C1): the ordered interpretation
list the spec describes — native mapping passthrough, strict JSON parse,
permissive literal-structure parse, JSON parse after normalizing quotes and
line breaks. -/
def interpretations (jsonLoads literalEval : String → Option Py) (raw : Py) :
    List (Option Py) :=
  [ (match raw with | Py.dict d => some (Py.dict d) | _ => none),
    (match raw with | Py.str s => jsonLoads s | _ => none),
    (match raw with | Py.str s => literalEval s | _ => none),
    (match raw with | Py.str s => jsonLoads (normalizeRaw s) | _ => none) ]

/-- A custom sensor definition dict
(`{'sensor_name', 'pattern', 'topic', 'device_class', 'value_type', 'delay_off'}`). -/
structure SensorDef where
  sensor_name : String
  pattern : String
  topic : String
  device_class : String
  value_type : String
  delay_off : Nat
deriving DecidableEq

/-- A command definition dict
(`{'command_name', 'single_press', 'on_message', 'off_message'}`); `none`
models Python None, `some ""` an empty form field. -/
structure CommandDef where
  command_name : String
  single_press : Option String
  on_message : Option String
  off_message : Option String
deriving DecidableEq

/-- Python truthiness of an optional string (None and "" are falsy). -/
def truthyO : Option String → Bool
  | none => false
  | some s => decide (¬ s = "")

/-- A node_info entry (`{'short_name', 'long_name', 'last_heard'}`). -/
structure NodeInfo where
  short_name : String
  long_name : String
  last_heard : ℚ
deriving DecidableEq

/-- A sensor_states entry; the live threading.Timer handle is modelled by its id. -/
structure BinSt where
  value : String
  last_update : ℚ
  timer : Option Nat
  delay_off : Nat
deriving DecidableEq

/-- Assoc-list lookup, modelling Python dict access. -/
def lookupA {α : Type} (m : List (String × α)) (k : String) : Option α :=
  (m.find? (fun p => p.1 == k)).map (fun p => p.2)

/-- Assoc-list update/insert, modelling Python dict assignment: replace the
binding when the key is present (dict keys are unique), append it otherwise. -/
def insertA {α : Type} : List (String × α) → String → α → List (String × α)
  | [], k, v => [(k, v)]
  | p :: t, k, v => if p.1 == k then (k, v) :: t else p :: insertA t k v

/-- The global mutable maps of mesh_dashboard.py relevant to the registry,
gathered into one record, plus the MQTT connection status the publisher checks. -/
structure Reg where
  mqttConnected : Bool
  prefixTopic : String
  enabled : List String
  known : List (String × List String)
  nodeInfo : List (String × NodeInfo)
  customs : List (String × List SensorDef)
  commands : List (String × List CommandDef)
  states : List (String × List (String × BinSt))
deriving DecidableEq

def BRIDGE_TAG : String := "[BRIDGE]"

/-- NUMERIC_KEYS (source lines 297-302), as a list. -/
def numericKeysL : List String :=
  ["batterylevel", "battery_level", "voltage", "temperature",
   "humidity", "pressure", "airutiltx", "air_util_tx", "channelutilization",
   "channel_utilization", "uptimeseconds", "uptime_seconds", "altitude",
   "groundspeed", "groundtrack", "satsinview", "pdop"]

/-- TELEMETRY_DEVICE_CLASSES (source lines 304-322): key ↦ (device_class, unit). -/
def telemetryDeviceClasses : List (String × String × String) :=
  [("batterylevel", "battery", "%"), ("battery_level", "battery", "%"),
   ("voltage", "voltage", "V"), ("temperature", "temperature", "°C"),
   ("humidity", "humidity", "%"), ("pressure", "pressure", "hPa"),
   ("airutiltx", "signal_strength", "%"), ("air_util_tx", "signal_strength", "%"),
   ("channelutilization", "signal_strength", "%"),
   ("channel_utilization", "signal_strength", "%"),
   ("uptimeseconds", "duration", "s"), ("uptime_seconds", "duration", "s"),
   ("altitude", "distance", "m"), ("groundspeed", "speed", "km/h"),
   ("groundtrack", "angle", "°"), ("satsinview", "count", ""),
   ("pdop", "signal_strength", "")]

/-- The binary_sensor device classes accepted at source line 388. -/
def allowedBinaryClasses : List String :=
  ["battery", "carbon_monoxide", "gas", "moisture", "motion", "occupancy",
   "smoke", "sound", "tamper", "vibration", "battery_charging", "cold",
   "connectivity", "door", "garage_door", "heat", "light", "lock", "moving",
   "opening", "plug", "power", "presence", "problem", "running", "safety",
   "update", "window"]

/-- The unit_of_measurement lookup for custom numeric sensors (source line 395). -/
def unitByClass : List (String × String) :=
  [("battery", "%"), ("voltage", "V"), ("temperature", "°C"), ("humidity", "%"),
   ("pressure", "hPa"), ("distance", "m"), ("speed", "km/h"), ("angle", "°"),
   ("current", "A"), ("energy", "kWh"), ("power", "W"), ("duration", "s"),
   ("illuminance", "lx"), ("signal_strength", "dBm")]

/-- The structured part of a discovery JSON payload (source lines 369-416);
kind-specific string-valued fields live in `extra`.  JSON serialization is
modelled structurally. -/
structure DiscPayload where
  name : String
  state_topic : String
  unique_id : String
  device_identifiers : List String
  device_name : String
  device_model : String
  device_manufacturer : String
  force_update : Bool
  extra : List (String × String)
deriving DecidableEq

/-- An MQTT payload: plain text, a numeric value, or a discovery record. -/
inductive PVal
  | s (v : String)
  | q (v : ℚ)
  | disc (p : DiscPayload)
deriving DecidableEq

/-- Observable effects of the bridge: MQTT publishes, discovery-publisher calls
from the packet path, timer manipulation, persistence, mesh sends. -/
inductive Ev
  | pub (topic : String) (payload : PVal) (retain : Bool)
  | discoveryCall (node key etype : String)
  | cancelTimer (id : Nat)
  | startTimer (id : Nat) (delay : Nat)
  | saveState
  | sendTextTo (node msg : String)
  | sendTextBroadcast (msg : String)
deriving DecidableEq

/-- `node_id.replace("!", "").replace(".", "_").replace(" ", "_")` (line 348). -/
def sanitizeNode (n : String) : String :=
  ⟨replaceChar ' ' '_' (replaceChar '.' '_' (dropChar '!' n.data))⟩

/-- Python `s[-3:]`. -/
def lastThree (s : String) : String :=
  ⟨s.data.drop (s.data.length - 3)⟩

/-- `sensor_key.lower().replace(' ', '_')` — the key normalization used in
discovery topics and unique ids. -/
def keyNorm (k : String) : String :=
  ⟨replaceChar ' ' '_' (lowerL k.data)⟩

/-- Python str.title over ASCII: an alphabetic character is upper-cased when
the previous character is not alphabetic, lower-cased otherwise. -/
def pyTitleL (cs : List Char) : List Char :=
  (cs.foldl
    (fun (acc : List Char × Bool) c =>
      let alpha : Bool := ('a' ≤ c ∧ c ≤ 'z') ∨ ('A' ≤ c ∧ c ≤ 'Z')
      let c' := if alpha then (if acc.2 then lowerChar c else upperChar c) else c
      (acc.1 ++ [c'], alpha))
    ([], false)).1

/-- The discovery topic derived at source line 357. -/
def discoveryTopicOf (node_id sensor_key entity_type : String) : String :=
  "homeassistant/" ++ entity_type ++ "/meshtastic_" ++ sanitizeNode node_id
    ++ "_" ++ keyNorm sensor_key ++ "/config"

/-- `short_name` resolution of source line 351. -/
def shortNameOf (reg : Reg) (node_id : String) : String :=
  match lookupA reg.nodeInfo node_id with
  | some i => i.short_name
  | none => sanitizeNode node_id

/-- `display_name` of source line 353. -/
def displayNameOf (reg : Reg) (node_id : String) : String :=
  shortNameOf reg node_id ++ "." ++ lastThree (sanitizeNode node_id)

/-- The `unique_id` derived at source line 372. -/
def uniqueIdOf (reg : Reg) (node_id sensor_key : String) : String :=
  "meshtastic_" ++ displayNameOf reg node_id ++ "_" ++ keyNorm sensor_key

/-- Jinja template constants of the discovery payloads (brace and quote
characters hex-escaped). -/
def floatTemplate : String := "\x7b\x7b value | float(0) \x7d\x7d"

def plainValueTemplate : String := "\x7b\x7b value \x7d\x7d"

def positionTemplate : String :=
  "\x7b\x7b value_json.latitude ~ \x27,\x27 ~ value_json.longitude if value_json.latitude is not none and value_json.longitude is not none else \x27\x27 \x7d\x7d"

def switchTemplate (on_msg : String) : String :=
  "\x7b\x7b \x27ON\x27 if value == \x27" ++ on_msg ++ "\x27 else \x27OFF\x27 \x7d\x7d"

/-- The first-matching custom sensor definition for a key (source line 354). -/
def sensorConfigOf (customsN : List SensorDef) (key : String) : Option SensorDef :=
  customsN.find? (fun s => s.sensor_name == key)

/-- The first-matching command definition for a key (source line 355). -/
def commandConfigOf (commandsN : List CommandDef) (key : String) : Option CommandDef :=
  commandsN.find? (fun c => c.command_name == key)

/-- The state topic derived at source lines 356-358. -/
def stateTopicOf (prefT : String) (customsN : List SensorDef)
    (node_id sensor_key entity_type : String) : String :=
  let topicMid :=
    match sensorConfigOf customsN sensor_key with
    | some s => s.topic
    | none => if entity_type = "device_tracker" then "position" else "telemetry"
  prefT ++ "/" ++ node_id ++ "/" ++ topicMid ++ "/" ++ sensor_key

/-- The shared refresh-button discovery topic (source line 364). -/
def buttonTopicOf (node_id : String) : String :=
  "homeassistant/button/meshtastic_" ++ sanitizeNode node_id ++ "_refresh_data/config"

/-- `sensor_states.get(node_id, {}).get(sensor_key, {"value": "OFF"})["value"]`
(source line 420). -/
def initialStateOf (reg : Reg) (node_id sensor_key : String) : String :=
  match lookupA ((lookupA reg.states node_id).getD []) sensor_key with
  | some st => st.value
  | none => "OFF"

/-- The discovery JSON payload built at source lines 369-416. -/
def discPayloadOf (reg : Reg) (node_id sensor_key entity_type : String) :
    DiscPayload :=
  let safe := sanitizeNode node_id
  let longn :=
    match lookupA reg.nodeInfo node_id with
    | some i => i.long_name
    | none => shortNameOf reg node_id ++ " " ++ safe
  let display := displayNameOf reg node_id
  let customsN := (lookupA reg.customs node_id).getD []
  let commandsN := (lookupA reg.commands node_id).getD []
  let sensor_config := sensorConfigOf customsN sensor_key
  let command_config := commandConfigOf commandsN sensor_key
  let base : DiscPayload :=
    { name := display ++ " " ++ (⟨pyTitleL (replaceChar '_' ' ' sensor_key.data)⟩ : String)
      state_topic := stateTopicOf reg.prefixTopic customsN node_id sensor_key entity_type
      unique_id := uniqueIdOf reg node_id sensor_key
      device_identifiers := ["meshtastic_" ++ safe]
      device_name := longn
      device_model := safe
      device_manufacturer := "Meshtastic"
      force_update := true
      extra := [] }
  if entity_type = "device_tracker" ∧ sensor_key = "position" then
    { base with extra :=
        [("json_attributes_topic",
          reg.prefixTopic ++ "/" ++ node_id ++ "/position/location"),
         ("source_type", "gps"),
         ("value_template", positionTemplate)] }
  else if entity_type = "binary_sensor" then
    match sensor_config with
    | some sc =>
        { base with extra :=
            [("payload_on", "ON"), ("payload_off", "OFF"),
             ("value_template", plainValueTemplate),
             ("device_class",
              if allowedBinaryClasses.contains sc.device_class then sc.device_class
              else "binary_sensor")] }
    | none => base
  else if entity_type = "sensor" then
    match sensor_config with
    | some sc =>
        { base with extra :=
            [("value_template", floatTemplate),
             ("device_class", sc.device_class),
             ("unit_of_measurement", (lookupA unitByClass sc.device_class).getD "")] }
    | none =>
        match (telemetryDeviceClasses.find? (fun p => p.1 == lowerS sensor_key)) with
        | some p =>
            { base with extra :=
                [("value_template", floatTemplate),
                 ("device_class", p.2.1),
                 ("unit_of_measurement", p.2.2)] }
        | none => base
  else if entity_type = "button" then
    match command_config with
    | some cc =>
        { base with extra :=
            [("command_topic",
              reg.prefixTopic ++ "/" ++ node_id ++ "/command/" ++ cc.command_name),
             ("payload_press", "PRESS")] }
    | none => base
  else if entity_type = "switch" then
    match command_config with
    | some cc =>
        if truthyO cc.on_message ∧ truthyO cc.off_message then
          { base with extra :=
              [("command_topic",
                reg.prefixTopic ++ "/" ++ node_id ++ "/command/" ++ cc.command_name),
               ("state_topic",
                reg.prefixTopic ++ "/" ++ node_id ++ "/command/"
                  ++ cc.command_name ++ "/state"),
               ("payload_on", cc.on_message.getD ""),
               ("payload_off", cc.off_message.getD ""),
               ("value_template", switchTemplate (cc.on_message.getD ""))] }
        else base
    | none => base
  else base

/-- publish_ha_discovery (source lines 341-422) as the list of MQTT publishes
it performs; the source function mutates no registry state, so the embedding
returns events only.  The connectivity gate (line 343) comes first, then the
enablement gate (line 346), which `remove=True` bypasses.  The remove branch
publishes empty retained payloads to the discovery topic, the state topic and
the shared refresh-button topic; the add branch publishes the discovery record
and, for a configured binary sensor, the current state retained. -/
def publish_ha_discovery (reg : Reg) (node_id sensor_key entity_type : String)
    (remove : Bool) : List Ev :=
  if ¬ reg.mqttConnected then []
  else if ¬ node_id ∈ reg.enabled ∧ ¬ remove then []
  else
    let customsN := (lookupA reg.customs node_id).getD []
    let discovery_topic := discoveryTopicOf node_id sensor_key entity_type
    let state_topic := stateTopicOf reg.prefixTopic customsN node_id sensor_key entity_type
    if remove then
      [Ev.pub discovery_topic (PVal.s "") true,
       Ev.pub state_topic (PVal.s "") true,
       Ev.pub (buttonTopicOf node_id) (PVal.s "") true]
    else
      [Ev.pub discovery_topic (PVal.disc (discPayloadOf reg node_id sensor_key entity_type)) true]
        ++ (if entity_type = "binary_sensor" ∧ (sensorConfigOf customsN sensor_key).isSome then
             [Ev.pub state_topic (PVal.s (initialStateOf reg node_id sensor_key)) true]
           else [])

/-- `entity_type` chosen for a known key (source lines 430, 460, 530, 676). -/
def entityForKey (k : String) : String :=
  if k = "position" ∨ k = "latitude" ∨ k = "longitude" then "device_tracker"
  else "sensor"

/-- Entity type of a custom sensor (source lines 442, 464 and others). -/
def entityForSensor (s : SensorDef) : String :=
  if s.value_type = "binary" then "binary_sensor" else "sensor"

/-- Entity type of a command (source lines 450, 468 and others). -/
def entityForCommand (c : CommandDef) : String :=
  if truthyO c.on_message ∧ truthyO c.off_message then "switch" else "button"

/-- The KnownKeys pruning of source line 456: keep a key iff it is a current
custom sensor name, a current command name, a numeric-telemetry key (after
lower-casing), or "position". -/
def pruneKnown (customNames commandNames known : List String) : List String :=
  known.filter
    (fun k => customNames.contains k || commandNames.contains k
      || numericKeysL.contains (lowerS k) || k == "position")

/-- The `if name not in known: known.add(name)` accumulation of the enable pass
(source lines 440-441, 448-449), folded over a definition list. -/
def addNames {α : Type} (nameOf : α → String) (defs : List α)
    (known : List String) : List String :=
  defs.foldl
    (fun k a => if k.contains (nameOf a) then k else k ++ [nameOf a]) known

/-- The body of trigger_ha_discovery after the known-entry creation of source
lines 425-426.  publish_ha_discovery reads no known-keys state, so the publish
list is computed beside the known-set updates it interleaves with in the
source; the results coincide. -/
def trigger_body (reg : Reg) (node_id : String) (enable : Bool) :
    Reg × List Ev :=
  let k0 := (lookupA reg.known node_id).getD []
  let customsN := (lookupA reg.customs node_id).getD []
  let commandsN := (lookupA reg.commands node_id).getD []
  if enable then
    let evs1 :=
      (((numericKeysL.map lowerS).filter (fun k => k0.contains k)).map
        (fun k => publish_ha_discovery reg node_id k (entityForKey k) false)).flatten
    let k1 := if k0.contains "position" then k0 else k0 ++ ["position"]
    let evs2 := publish_ha_discovery reg node_id "position" "device_tracker" false
    let k2 := addNames (fun s => s.sensor_name) customsN k1
    let evs3 :=
      (customsN.map
        (fun s =>
          publish_ha_discovery reg node_id s.sensor_name (entityForSensor s) false)).flatten
    let k3 := addNames (fun c => c.command_name) commandsN k2
    let evs4 :=
      (commandsN.map
        (fun c =>
          publish_ha_discovery reg node_id c.command_name (entityForCommand c) false)).flatten
    let k4 :=
      if (lookupA reg.customs node_id).isSome then
        pruneKnown (customsN.map (fun s => s.sensor_name))
          (commandsN.map (fun c => c.command_name)) k3
      else k3
    ({ reg with known := insertA reg.known node_id k4 },
     evs1 ++ evs2 ++ evs3 ++ evs4)
  else
    let evsA :=
      (k0.map
        (fun k => publish_ha_discovery reg node_id k (entityForKey k) true)).flatten
    let evsB :=
      (customsN.map
        (fun s =>
          publish_ha_discovery reg node_id s.sensor_name (entityForSensor s) true)).flatten
    let evsC :=
      (commandsN.map
        (fun c =>
          publish_ha_discovery reg node_id c.command_name (entityForCommand c) true)).flatten
    (reg, evsA ++ evsB ++ evsC)

/-- trigger_ha_discovery (source lines 424-469): ensure the node has a
known-keys entry (lines 425-426), then run the enable or disable pass. -/
def trigger_ha_discovery (reg : Reg) (node_id : String) (enable : Bool) :
    Reg × List Ev :=
  trigger_body
    (if (lookupA reg.known node_id).isSome then reg
     else { reg with known := reg.known ++ [(node_id, [])] })
    node_id enable

/-- Enabling a node from the UI (source lines 664-666 / 966-968): add it to the
enabled set, then run the discovery enable pass. -/
def enableNode (reg : Reg) (node_id : String) : Reg × List Ev :=
  let reg' :=
    { reg with enabled :=
        if reg.enabled.contains node_id then reg.enabled
        else reg.enabled ++ [node_id] }
  trigger_ha_discovery reg' node_id true

/-- Disabling a node from the UI (source lines 667-669 / 969-971): remove it
from the enabled set, then run the discovery disable pass. -/
def disableNode (reg : Reg) (node_id : String) : Reg × List Ev :=
  let reg' := { reg with enabled := reg.enabled.filter (fun n => ¬ n = node_id) }
  trigger_ha_discovery reg' node_id false

/-- The default sensor state built at source line 572. -/
def defaultBinSt (sensor : SensorDef) : BinSt :=
  { value := "OFF", last_update := 0, timer := none, delay_off := sensor.delay_off }

/-- The per-sensor MQTT state topic (source line 555). -/
def sensorTopic (prefixT node : String) (sensor : SensorDef) : String :=
  prefixT ++ "/" ++ node ++ "/" ++ sensor.topic ++ "/" ++ sensor.sensor_name

/-- The ON-candidate test of source line 573: word-boundary pattern match on
the lowered text, or the lowered text containing "detected". -/
def bmatchCond (sensor : SensorDef) (text : String) : Bool :=
  wordBoundaryMatch (lowerS sensor.pattern).data (lowerS text).data
    || containsSub "detected".data (lowerS text).data

/-- The OFF-candidate test of source line 574: lowered text contains "cleared". -/
def clearedCond (text : String) : Bool :=
  containsSub "cleared".data (lowerS text).data

/-- The `new_state` local of source lines 575-577. -/
def newStateOf (sensor : SensorDef) (st0 : Option BinSt) (text : String) : String :=
  if bmatchCond sensor text || clearedCond text then
    (if bmatchCond sensor text then "ON" else "OFF")
  else (st0.getD (defaultBinSt sensor)).value

/-- Result of one binary-sensor evaluation: new sensor state, new known-key
set for the node, emitted events. -/
structure BinOut where
  st : BinSt
  known : List String
  evs : List Ev
deriving DecidableEq

/-- The binary branch of the custom-sensor loop in handle_packet (source lines
571-605) for one sensor: transition on match/cleared (cancelling any pending
timer, publishing retained, recording rx_time, registering the key and
publishing discovery on first observation), then delay-off scheduling
(cancelling the previous timer before starting the new one), then save_state.
Note the source cancels a timer without clearing the handle, so the state
keeps the old timer id until a new one replaces it. -/
def binaryStep (prefixT node : String) (sensor : SensorDef) (known : List String)
    (enabled : Bool) (st0 : Option BinSt) (text : String) (rxTime : ℚ)
    (freshId : Nat) : BinOut :=
  let current := st0.getD (defaultBinSt sensor)
  let topic := sensorTopic prefixT node sensor
  let tr :=
    if bmatchCond sensor text || clearedCond text then
      let newState := if bmatchCond sensor text then "ON" else "OFF"
      let cancelEvs :=
        match current.timer with
        | some t => [Ev.cancelTimer t]
        | none => []
      let st' := { current with value := newState, last_update := rxTime }
      let kd :=
        if known.contains sensor.sensor_name then (known, ([] : List Ev))
        else (known ++ [sensor.sensor_name],
          if enabled then [Ev.discoveryCall node sensor.sensor_name "binary_sensor"]
          else [])
      (st', kd.1, cancelEvs ++ [Ev.pub topic (PVal.s newState) true] ++ kd.2)
    else (current, known, ([] : List Ev))
  if sensor.delay_off > 0 ∧ newStateOf sensor st0 text = "ON" then
    let cancel2 :=
      match tr.1.timer with
      | some t => [Ev.cancelTimer t]
      | none => []
    { st := { tr.1 with timer := some freshId }
      known := tr.2.1
      evs := tr.2.2 ++ cancel2 ++ [Ev.startTimer freshId sensor.delay_off, Ev.saveState] }
  else { st := tr.1, known := tr.2.1, evs := tr.2.2 ++ [Ev.saveState] }

/-- The auto_off closure of source lines 591-600, firing against the live
sensor_states map at wall-clock time `now`. -/
def autoOffFire (prefixT node : String) (sensor : SensorDef)
    (states : List (String × List (String × BinSt))) (now : ℚ) :
    List (String × List (String × BinSt)) × List Ev :=
  match lookupA states node with
  | none => (states, [])
  | some m =>
      match lookupA m sensor.sensor_name with
      | none => (states, [])
      | some cur =>
          if cur.value = "ON" ∧ now - cur.last_update ≥ (sensor.delay_off : ℚ) then
            let cur' := { cur with value := "OFF", timer := none }
            (insertA states node (insertA m sensor.sensor_name cur'),
             [Ev.pub (sensorTopic prefixT node sensor) (PVal.s "OFF") true,
              Ev.saveState])
          else (states, [])

/-- Update the set of live (started, not yet cancelled or fired) timer ids by a
run of events. -/
def applyTimerEvs (live : List Nat) (evs : List Ev) : List Nat :=
  evs.foldl
    (fun L e =>
      match e with
      | Ev.startTimer id _ => L ++ [id]
      | Ev.cancelTimer id => L.filter (fun x => ¬ x = id)
      | _ => L) live

/-- threading.Timer expiry: a timer whose cancel came before its delay elapsed
never runs its callback; a live timer runs auto_off and leaves the live set. -/
def fireTimer (prefixT node : String) (sensor : SensorDef)
    (states : List (String × List (String × BinSt))) (live : List Nat)
    (id : Nat) (now : ℚ) :
    List (String × List (String × BinSt)) × List Nat × List Ev :=
  if live.contains id then
    let r := autoOffFire prefixT node sensor states now
    (r.1, live.filter (fun x => ¬ x = id), r.2)
  else (states, live, [])

/-- At most one live timer, and only the one recorded in the sensor state. -/
def timerOk (st : BinSt) (live : List Nat) : Prop :=
  (∀ x ∈ live, st.timer = some x) ∧ live.Nodup

/-- Result of one numeric-sensor evaluation. -/
structure NumOut where
  known : List String
  evs : List Ev
deriving DecidableEq

/-- The numeric branch of the custom-sensor loop in handle_packet (source lines
556-570) for one sensor.  The ValueError guard of line 569 is unreachable: the
regex capture always parses as a float.  The numeric payload is modelled as the
exact rational value; the first-observation branch also publishes discovery and
an initial "0" when the node is enabled. -/
def numericStep (prefixT node : String) (sensor : SensorDef) (known : List String)
    (enabled : Bool) (text : String) : NumOut :=
  let topic := sensorTopic prefixT node sensor
  match numericSearch (lowerS sensor.pattern).data (lowerS text).data with
  | some cap =>
      let value := ratOfDecimal cap
      let evs0 := [Ev.pub topic (PVal.q value) true]
      if known.contains sensor.sensor_name then { known := known, evs := evs0 }
      else
        { known := known ++ [sensor.sensor_name]
          evs := evs0 ++
            (if enabled then
              [Ev.discoveryCall node sensor.sensor_name "sensor",
               Ev.pub topic (PVal.s "0") true]
             else []) }
  | none => { known := known, evs := [] }

/-- A node_messages entry. -/
structure Msg where
  time : ℚ
  kind : String
  message : String
deriving DecidableEq

/-- State touched by the MQTT→mesh relay: the registry, whether the mesh
interface object exists, and the per-node message log. -/
structure Sys where
  reg : Reg
  ifacePresent : Bool
  nodeMessages : List (String × List Msg)
deriving DecidableEq

def appendMsg (sys : Sys) (node : String) (now : ℚ) (kind msg : String) : Sys :=
  let cur := (lookupA sys.nodeMessages node).getD []
  { sys with nodeMessages := insertA sys.nodeMessages node (cur ++ [⟨now, kind, msg⟩]) }

/-- on_mqtt_message (source lines 214-273): the MQTT→mesh command relay.
Self-authored payloads (BRIDGE_TAG prefix) are dropped; the topic must split
into at least four segments with the literal "Mesh"/"feeds" head before any
action is taken. -/
def on_mqtt_message (sys : Sys) (topic payload : String) (now : ℚ) :
    Sys × List Ev :=
  if startsWithS payload BRIDGE_TAG then (sys, [])
  else
    let parts := splitSlash topic
    if parts.length < 4 ∨ ¬ parts.get? 0 = some "Mesh" ∨ ¬ parts.get? 1 = some "feeds"
    then (sys, [])
    else
      let node_id := (parts.get? 2).getD ""
      let sub_type := (parts.get? 3).getD ""
      if sub_type = "text" then
        (if sys.ifacePresent then
          (sys,
           [if node_id = "broadcast" then Ev.sendTextBroadcast payload
            else Ev.sendTextTo node_id payload])
         else (sys, []))
      else if sub_type = "command" ∧ parts.length ≥ 5 then
        let command_name := (parts.get? 4).getD ""
        match lookupA sys.reg.commands node_id with
        | none => (sys, [])
        | some cmds =>
            match cmds.find? (fun c => c.command_name == command_name) with
            | none => (sys, [])
            | some cc =>
                let text_topic := sys.reg.prefixTopic ++ "/" ++ node_id ++ "/text"
                let state_topic :=
                  sys.reg.prefixTopic ++ "/" ++ node_id ++ "/command/"
                    ++ command_name ++ "/state"
                if truthyO cc.single_press ∧ payload = "PRESS" then
                  (if sys.ifacePresent then
                    (appendMsg sys node_id now "sent" (cc.single_press.getD ""),
                     [Ev.sendTextTo node_id (cc.single_press.getD ""),
                      Ev.pub text_topic (PVal.s (cc.single_press.getD "")) false,
                      Ev.saveState])
                   else (sys, []))
                else if truthyO cc.on_message ∧ truthyO cc.off_message then
                  if cc.on_message = some payload then
                    (if sys.ifacePresent then
                      (appendMsg sys node_id now "sent" payload,
                       [Ev.sendTextTo node_id payload,
                        Ev.pub text_topic (PVal.s payload) false,
                        Ev.pub state_topic (PVal.s payload) true,
                        Ev.saveState])
                     else (sys, []))
                  else if cc.off_message = some payload then
                    (if sys.ifacePresent then
                      (appendMsg sys node_id now "sent" payload,
                       [Ev.sendTextTo node_id payload,
                        Ev.pub text_topic (PVal.s payload) false,
                        Ev.pub state_topic (PVal.s payload) true,
                        Ev.saveState])
                     else (sys, []))
                  else (sys, [])
                else (sys, [])
      else (sys, [])

/-- The add-sensor form fields of configure_sensor (source lines 805-810);
`none` models an absent field, `some ""` an empty one. -/
structure SensorForm where
  sensor_name : Option String
  pattern : Option String
  topic : String
  device_class : String
  value_type : String
  delay_off : Nat
deriving DecidableEq

/-- The add path of configure_sensor (source lines 805-825).  The only
validation is Python truthiness of sensor_name and pattern; there is no
duplicate-name check, the new definition is appended unconditionally.  `none`
models the uncaught KeyError of line 816 when the node has no known_nodes
entry (the custom_sensors append has then already been applied). -/
def configure_sensor_add (reg : Reg) (node_id : String) (f : SensorForm) :
    Option (Reg × List Ev) :=
  if truthyO f.sensor_name ∧ truthyO f.pattern then
    let name := f.sensor_name.getD ""
    let d : SensorDef :=
      { sensor_name := name, pattern := f.pattern.getD "", topic := f.topic,
        device_class := f.device_class, value_type := f.value_type,
        delay_off := f.delay_off }
    let customsN := (lookupA reg.customs node_id).getD []
    let reg1 := { reg with customs := insertA reg.customs node_id (customsN ++ [d]) }
    let withKnown : Option Reg :=
      if ((lookupA reg.known node_id).getD []).contains name then some reg1
      else
        match lookupA reg.known node_id with
        | some ks => some { reg1 with known := insertA reg1.known node_id (ks ++ [name]) }
        | none => none
    match withKnown with
    | none => none
    | some reg2 =>
        some (reg2,
          Ev.saveState ::
            (if node_id ∈ reg.enabled then
              publish_ha_discovery reg2 node_id name
                (if f.value_type = "binary" then "binary_sensor" else "sensor") false
             else []))
  else some (reg, [])

/-- The add path of configure_command (source lines 851-869).  Validation is
the truthiness check of line 855 only: no duplicate-name check, the new
definition is appended unconditionally. -/
def configure_command_add (reg : Reg) (node_id : String)
    (command_name single_press on_message off_message : Option String) :
    Option (Reg × List Ev) :=
  if truthyO command_name ∧
      (truthyO single_press ∨ (truthyO on_message ∧ truthyO off_message)) then
    let name := command_name.getD ""
    let c : CommandDef :=
      { command_name := name,
        single_press := if truthyO single_press then single_press else none,
        on_message := on_message, off_message := off_message }
    let commandsN := (lookupA reg.commands node_id).getD []
    let reg1 := { reg with commands := insertA reg.commands node_id (commandsN ++ [c]) }
    let withKnown : Option Reg :=
      if ((lookupA reg.known node_id).getD []).contains name then some reg1
      else
        match lookupA reg.known node_id with
        | some ks => some { reg1 with known := insertA reg1.known node_id (ks ++ [name]) }
        | none => none
    match withKnown with
    | none => none
    | some reg2 =>
        some (reg2,
          Ev.saveState ::
            (if node_id ∈ reg.enabled then
              publish_ha_discovery reg2 node_id name
                (if truthyO on_message ∧ truthyO off_message then "switch" else "button")
                false
             else []))
  else some (reg, [])

/-- Topics of publish events carrying a non-empty payload (discovery adds,
state publishes). -/
def pubTopicsNE (evs : List Ev) : List String :=
  evs.filterMap
    (fun e =>
      match e with
      | Ev.pub t p _ => if p = PVal.s "" then none else some t
      | _ => none)

/-- Topics of publish events carrying the empty payload (retractions). -/
def pubTopicsEmpty (evs : List Ev) : List String :=
  evs.filterMap
    (fun e =>
      match e with
      | Ev.pub t p _ => if p = PVal.s "" then some t else none
      | _ => none)

/-- Number of retained "OFF" publishes in an event run. -/
def countOffPubs (evs : List Ev) : Nat :=
  (evs.filter
    (fun e =>
      match e with
      | Ev.pub _ p r => decide (p = PVal.s "OFF") && r
      | _ => false)).length

/-- The concrete binary sensor of the spec's delay-off example. -/
def leakSensor : SensorDef :=
  { sensor_name := "leak", pattern := "leak", topic := "custom",
    device_class := "moisture", value_type := "binary", delay_off := 5 }

/-- A minimal registry: connected MQTT, default topic root, nothing known. -/
def emptyReg : Reg :=
  { mqttConnected := true, prefixTopic := "Mesh/feeds", enabled := [],
    known := [], nodeInfo := [], customs := [], commands := [], states := [] }

/-- Registry with one node whose KnownKeys set is empty. -/
def c5Reg : Reg := { emptyReg with known := [("n1", [])] }

/-- A binary door sensor used for the duplicate-add scenario. -/
def doorSensor : SensorDef :=
  { sensor_name := "door", pattern := "door", topic := "custom",
    device_class := "door", value_type := "binary", delay_off := 0 }

/-- Registry already holding `doorSensor` on node "n1". -/
def c7Reg : Reg :=
  { emptyReg with customs := [("n1", [doorSensor])], known := [("n1", ["door"])] }

/-- The add form resubmitting the same sensor name. -/
def doorForm : SensorForm :=
  { sensor_name := some "door", pattern := some "door", topic := "custom",
    device_class := "door", value_type := "binary", delay_off := 0 }

/-- A relay context with the mesh interface present. -/
def emptySys : Sys :=
  { reg := emptyReg, ifacePresent := true, nodeMessages := [] }
/-- An add form missing its sensor name. -/
def badSensorForm : SensorForm :=
  { sensor_name := none, pattern := some "door", topic := "custom",
    device_class := "door", value_type := "binary", delay_off := 0 }

/-- The registry produced by resubmitting `doorForm` against `c7Reg`: the
duplicate definition sits beside the original. -/
def c7DupReg : Reg :=
  { c7Reg with customs := [("n1", [doorSensor, doorSensor])] }

/-- The concrete numeric sensor of the spec's "temp" example. -/
def tempSensor : SensorDef :=
  { sensor_name := "temp1", pattern := "temp", topic := "custom",
    device_class := "temperature", value_type := "numeric", delay_off := 0 }


/-- Delay-off scenario, step 1: "leak detected" at t=0 schedules timer 1. -/
def c3Step1 : BinOut :=
  binaryStep "Mesh/feeds" "n1" leakSensor ["leak"] false none "leak detected" 0 1

/-- Delay-off scenario, step 2: a second match at t=2, before timer 1 fires,
cancels it and schedules timer 2. -/
def c3Step2 : BinOut :=
  binaryStep "Mesh/feeds" "n1" leakSensor ["leak"] false (some c3Step1.st) "leak" 2 2

/-- Live timers after both steps. -/
def c3Live : List Nat := applyTimerEvs (applyTimerEvs [] c3Step1.evs) c3Step2.evs

/-- sensor_states as handle_packet stores it after step 2. -/
def c3States : List (String × List (String × BinSt)) := [("n1", [("leak", c3Step2.st)])]

/-- Timer 1's expiry at t=10 (it was cancelled, so its callback never runs). -/
def c3Fire1 : List (String × List (String × BinSt)) × List Nat × List Ev :=
  fireTimer "Mesh/feeds" "n1" leakSensor c3States c3Live 1 10

/-- Timer 2's expiry at t=10. -/
def c3Fire2 : List (String × List (String × BinSt)) × List Nat × List Ev :=
  fireTimer "Mesh/feeds" "n1" leakSensor c3Fire1.1 c3Fire1.2.1 2 10


/-- C1: for every input the telemetry decoder returns the result of the first
successful interpretation, tried in the spec's order (native mapping, strict
JSON, literal structure, JSON after quote/newline normalization), and returns
the empty mapping when every interpretation fails (including None, empty, or
unparseable inputs); as a total Lean function it never raises.  The two
hypotheses record that Python's json.loads / ast.literal_eval fail on the
empty string. -/
theorem C1_decoder_first_success (jsonLoads literalEval : String → Option Py)
    (hj : jsonLoads "" = none) (hl : literalEval "" = none) (raw : Py) :
    parse_telemetry_raw jsonLoads literalEval raw
      = (firstSome (interpretations jsonLoads literalEval raw)).getD (Py.dict []) := by
  cases raw with
  | dict d =>
      cases d with
      | nil => simp [parse_telemetry_raw, interpretations, firstSome, Py.isFalsy]
      | cons h t =>
          simp [parse_telemetry_raw, interpretations, firstSome, Py.isFalsy, List.isEmpty]
  | str s =>
      by_cases hs : s = ""
      · subst hs
        have hn : normalizeRaw "" = "" := rfl
        simp [parse_telemetry_raw, interpretations, firstSome, Py.isFalsy, hj, hl, hn]
      · simp only [parse_telemetry_raw, interpretations, Py.isFalsy, decide_eq_true_eq,
          if_neg hs]
        cases h1 : jsonLoads s with
        | some v => simp [firstSome, h1, hs]
        | none =>
            cases h2 : literalEval s with
            | some v => simp [firstSome, h1, h2, hs]
            | none =>
                cases h3 : jsonLoads (normalizeRaw s) with
                | some v => simp [firstSome, h1, h2, h3, hs]
                | none => simp [firstSome, h1, h2, h3, hs]
  | num q =>
      by_cases hq : q = 0
      · subst hq; simp [parse_telemetry_raw, interpretations, firstSome, Py.isFalsy]
      · simp [parse_telemetry_raw, interpretations, firstSome, Py.isFalsy, hq]
  | bool b =>
      cases b <;> simp [parse_telemetry_raw, interpretations, firstSome, Py.isFalsy]
  | pynone => simp [parse_telemetry_raw, interpretations, firstSome, Py.isFalsy]
  | list xs =>
      cases xs <;>
        simp [parse_telemetry_raw, interpretations, firstSome, Py.isFalsy, List.isEmpty]

/-- Witness for C1 at a concrete parser pair and input. -/
theorem C1_decoder_first_success_witness :
    parse_telemetry_raw (fun _ => none) (fun _ => none) (Py.str "garbage")
      = (firstSome (interpretations (fun _ => none) (fun _ => none)
          (Py.str "garbage"))).getD (Py.dict []) :=
  C1_decoder_first_success (fun _ => none) (fun _ => none) rfl rfl (Py.str "garbage")


/-- C6: the KnownKeys pruning step (restriction to current custom sensor
names, current command names, numeric-telemetry keys and "position", source
line 456) is idempotent: running it twice yields the same set as running it
once, for every node's name sets and every KnownKeys set. -/
theorem C6_prune_idempotent (customNames commandNames known : List String) :
    pruneKnown customNames commandNames (pruneKnown customNames commandNames known)
      = pruneKnown customNames commandNames known := by
  simp [pruneKnown, List.filter_filter]

/-- C10: the enablement gate lives inside publish_ha_discovery: for a node not
in the enabled set, an add call (`remove=False`) publishes nothing (and the
source function touches no state), while a retraction (`remove=True`) passes
the gate regardless of enablement and, when MQTT is connected, publishes the
retractions. -/
theorem C10_discovery_gate (reg : Reg) (node_id sensor_key entity_type : String) :
    (¬ node_id ∈ reg.enabled →
      publish_ha_discovery reg node_id sensor_key entity_type false = []) ∧
    (reg.mqttConnected = true →
      publish_ha_discovery reg node_id sensor_key entity_type true ≠ []) := by
  constructor
  · intro h
    by_cases hc : reg.mqttConnected
    · simp [publish_ha_discovery, hc, h]
    · simp [publish_ha_discovery, hc]
  · intro hc
    by_cases he : node_id ∈ reg.enabled <;>
      simp [publish_ha_discovery, hc, he]

/-- Witness for C10 at a concrete disabled node. -/
theorem C10_discovery_gate_witness :
    publish_ha_discovery emptyReg "n1" "temperature" "sensor" false = [] ∧
    publish_ha_discovery emptyReg "n1" "temperature" "sensor" true ≠ [] :=
  ⟨(C10_discovery_gate emptyReg "n1" "temperature" "sensor").1 (by decide),
   (C10_discovery_gate emptyReg "n1" "temperature" "sensor").2 (by decide)⟩

/-- C9: the MQTT→mesh relay drops self-authored messages (payloads starting
with the bridge marker) and validates the topic shape (at least four segments
headed "Mesh"/"feeds") before acting: in either failure case it performs no
mesh send, no publish and no state change. -/
theorem C9_relay_guards (sys : Sys) (topic payload : String) (now : ℚ) :
    (startsWithS payload BRIDGE_TAG = true →
      on_mqtt_message sys topic payload now = (sys, [])) ∧
    (((splitSlash topic).length < 4 ∨
        ¬ (splitSlash topic).get? 0 = some "Mesh" ∨
        ¬ (splitSlash topic).get? 1 = some "feeds") →
      on_mqtt_message sys topic payload now = (sys, [])) := by
  constructor
  · intro h
    simp [on_mqtt_message, h]
  · intro h
    by_cases hb : startsWithS payload BRIDGE_TAG = true
    · simp [on_mqtt_message, hb]
    · unfold on_mqtt_message
      rw [if_neg hb, if_pos h]

/-- Witness for C9: a bridge-tagged payload on a good topic, and an untagged
payload on a malformed topic, both produce no action. -/
theorem C9_relay_guards_witness :
    on_mqtt_message emptySys "Mesh/feeds/n1/text" "[BRIDGE]hi" 0 = (emptySys, []) ∧
    on_mqtt_message emptySys "bad/topic" "hello" 0 = (emptySys, []) :=
  ⟨(C9_relay_guards emptySys "Mesh/feeds/n1/text" "[BRIDGE]hi" 0).1 (by decide),
   (C9_relay_guards emptySys "bad/topic" "hello" 0).2 (by decide)⟩

lemma lookupA_cons {α : Type} (a : String) (b : α) (t : List (String × α)) (k : String) :
    lookupA ((a, b) :: t) k = if a == k then some b else lookupA t k := by
  by_cases h : a == k <;> simp [lookupA, List.find?, h]

lemma lookupA_insertA_self {α : Type} (m : List (String × α)) (k : String) (v : α) :
    lookupA (insertA m k v) k = some v := by
  induction m with
  | nil => simp [insertA, lookupA]
  | cons p t ih =>
      by_cases hp : p.1 == k
      · simp [insertA, hp, lookupA_cons]
      · cases p with
        | mk a b =>
            simp only [insertA, if_neg hp]
            rw [lookupA_cons]
            simp only at hp
            rw [if_neg hp]
            exact ih

/-- C7 counterexample: node "n1" already has a sensor named "door"; submitting
an add with the same name is not rejected — the duplicate definition is
appended, so the registry changes. -/
theorem C7_counterexample :
    (((lookupA c7Reg.customs "n1").getD []).map
        (fun s => s.sensor_name)).contains "door" = true ∧
    (configure_sensor_add c7Reg "n1" doorForm).map
        (fun r => (lookupA r.1.customs "n1").getD [])
      = some [doorSensor, doorSensor] := by
  decide

/-- C7 amended: an add with missing required fields (falsy sensor name or
pattern; falsy command name or message set) is rejected and leaves the
registry unchanged, but there is no duplicate-name check: a valid add always
appends its definition to the node's list, even when the name duplicates an
existing definition. -/
theorem C7_add_appends (reg : Reg) (node_id : String) (f : SensorForm)
    (cn sp om fm : Option String) :
    (¬ (truthyO f.sensor_name = true ∧ truthyO f.pattern = true) →
      configure_sensor_add reg node_id f = some (reg, [])) ∧
    (∀ reg' evs, truthyO f.sensor_name = true → truthyO f.pattern = true →
      configure_sensor_add reg node_id f = some (reg', evs) →
      (lookupA reg'.customs node_id).getD []
        = (lookupA reg.customs node_id).getD []
          ++ [{ sensor_name := f.sensor_name.getD "", pattern := f.pattern.getD "",
                topic := f.topic, device_class := f.device_class,
                value_type := f.value_type, delay_off := f.delay_off }]) ∧
    (¬ (truthyO cn = true ∧
          (truthyO sp = true ∨ (truthyO om = true ∧ truthyO fm = true))) →
      configure_command_add reg node_id cn sp om fm = some (reg, [])) ∧
    (∀ reg' evs, truthyO cn = true →
      (truthyO sp = true ∨ (truthyO om = true ∧ truthyO fm = true)) →
      configure_command_add reg node_id cn sp om fm = some (reg', evs) →
      (lookupA reg'.commands node_id).getD []
        = (lookupA reg.commands node_id).getD []
          ++ [{ command_name := cn.getD "",
                single_press := if truthyO sp then sp else none,
                on_message := om, off_message := fm }]) := by
  refine ⟨?_, ?_, ?_, ?_⟩
  · intro h
    simp only [configure_sensor_add, if_neg h]
  · intro reg' evs h1 h2 heq
    simp only [configure_sensor_add, if_pos (And.intro h1 h2)] at heq
    by_cases hcont :
        ((lookupA reg.known node_id).getD []).contains (f.sensor_name.getD "") = true
    · rw [if_pos hcont] at heq
      simp only [Option.some.injEq, Prod.mk.injEq] at heq
      rw [← heq.1]
      simp [lookupA_insertA_self]
    · rw [if_neg hcont] at heq
      cases hks : lookupA reg.known node_id with
      | none =>
          rw [hks] at heq
          exact absurd heq (by simp)
      | some ks =>
          rw [hks] at heq
          simp only [Option.some.injEq, Prod.mk.injEq] at heq
          rw [← heq.1]
          simp [lookupA_insertA_self]
  · intro h
    simp only [configure_command_add, if_neg h]
  · intro reg' evs h1 h2 heq
    simp only [configure_command_add, if_pos (And.intro h1 h2)] at heq
    by_cases hcont :
        ((lookupA reg.known node_id).getD []).contains (cn.getD "") = true
    · rw [if_pos hcont] at heq
      simp only [Option.some.injEq, Prod.mk.injEq] at heq
      rw [← heq.1]
      simp [lookupA_insertA_self]
    · rw [if_neg hcont] at heq
      cases hks : lookupA reg.known node_id with
      | none =>
          rw [hks] at heq
          exact absurd heq (by simp)
      | some ks =>
          rw [hks] at heq
          simp only [Option.some.injEq, Prod.mk.injEq] at heq
          rw [← heq.1]
          simp [lookupA_insertA_self]

/-- Witness for C7 amended: a nameless form is rejected unchanged; the
duplicate "door" add appends beside the original. -/
theorem C7_add_appends_witness :
    configure_sensor_add emptyReg "n1" badSensorForm = some (emptyReg, []) ∧
    (lookupA c7DupReg.customs "n1").getD []
      = (lookupA c7Reg.customs "n1").getD [] ++ [doorSensor] :=
  ⟨(C7_add_appends emptyReg "n1" badSensorForm none none none none).1 (by decide),
   (C7_add_appends c7Reg "n1" doorForm none none none none).2.1 c7DupReg
     [Ev.saveState] (by decide) (by decide) (by decide)⟩

/-- C4: a numeric SensorDefinition is evaluated with the word-boundary,
case-insensitive regex capturing a signed decimal adjacent to the pattern;
on a match the captured value is published retained (the first emitted event),
on no match nothing is published; in particular pattern "temp" on
"temp 21.5 now" publishes 21.5, and on "temperature" publishes nothing. -/
theorem C4_numeric_sensor (prefixT node : String) (sensor : SensorDef)
    (known : List String) (enabled : Bool) (text : String) :
    (∀ cap, numericSearch (lowerS sensor.pattern).data (lowerS text).data = some cap →
      (numericStep prefixT node sensor known enabled text).evs.head?
        = some (Ev.pub (sensorTopic prefixT node sensor)
            (PVal.q (ratOfDecimal cap)) true)) ∧
    (numericSearch (lowerS sensor.pattern).data (lowerS text).data = none →
      (numericStep prefixT node sensor known enabled text).evs = []) ∧
    (sensor.pattern = "temp" →
      (numericStep prefixT node sensor known enabled "temp 21.5 now").evs.head?
        = some (Ev.pub (sensorTopic prefixT node sensor)
            (PVal.q ((43 : ℚ) / 2)) true)) ∧
    (sensor.pattern = "temp" →
      (numericStep prefixT node sensor known enabled "temperature").evs = []) := by
  refine ⟨?_, ?_, ?_, ?_⟩
  · intro cap h
    simp only [numericStep, h]
    split <;> simp
  · intro h
    simp [numericStep, h]
  · intro hp
    have hs : numericSearch (lowerS "temp").data (lowerS "temp 21.5 now").data
        = some ['2', '1', '.', '5'] := by decide
    have hr : ratOfDecimal ['2', '1', '.', '5'] = (43 : ℚ) / 2 := by
      simp [ratOfDecimal, digitsToNat, isDigitCh]
      norm_num
    simp only [numericStep, hp, hs, hr]
    split <;> simp
  · intro hp
    have hs : numericSearch (lowerS "temp").data (lowerS "temperature").data
        = none := by decide
    simp [numericStep, hp, hs]

/-- Witness for C4 at the concrete "temp" sensor. -/
theorem C4_numeric_sensor_witness :
    (numericStep "Mesh/feeds" "n1" tempSensor [] false "temp 21.5 now").evs.head?
      = some (Ev.pub (sensorTopic "Mesh/feeds" "n1" tempSensor)
          (PVal.q ((43 : ℚ) / 2)) true) ∧
    (numericStep "Mesh/feeds" "n1" tempSensor [] false "temperature").evs = [] :=
  ⟨(C4_numeric_sensor "Mesh/feeds" "n1" tempSensor [] false "x").2.2.1 rfl,
   (C4_numeric_sensor "Mesh/feeds" "n1" tempSensor [] false "x").2.2.2 rfl⟩

/-- C2: for a binary SensorDefinition and an arriving text, a word-boundary
pattern match or a contained "detected" turns the state ON; otherwise a
contained "cleared" turns it OFF; on either transition a pending timer (if
any) is cancelled, the new value is published retained to the sensor's topic,
the last-update timestamp becomes the packet receive time, and a first
observation registers the key in KnownKeys and (node enabled) publishes a
binary_sensor discovery record. -/
theorem C2_binary_transition (prefixT node : String) (sensor : SensorDef)
    (known : List String) (enabled : Bool) (st0 : Option BinSt) (text : String)
    (rxTime : ℚ) (freshId : Nat) (out : BinOut)
    (hout : binaryStep prefixT node sensor known enabled st0 text rxTime freshId = out) :
    (bmatchCond sensor text = true →
      out.st.value = "ON" ∧ out.st.last_update = rxTime ∧
      Ev.pub (sensorTopic prefixT node sensor) (PVal.s "ON") true ∈ out.evs ∧
      (∀ t, (st0.getD (defaultBinSt sensor)).timer = some t →
        Ev.cancelTimer t ∈ out.evs) ∧
      (known.contains sensor.sensor_name = false →
        out.known = known ++ [sensor.sensor_name] ∧
        (enabled = true →
          Ev.discoveryCall node sensor.sensor_name "binary_sensor" ∈ out.evs))) ∧
    (bmatchCond sensor text = false → clearedCond text = true →
      out.st.value = "OFF" ∧ out.st.last_update = rxTime ∧
      Ev.pub (sensorTopic prefixT node sensor) (PVal.s "OFF") true ∈ out.evs ∧
      (∀ t, (st0.getD (defaultBinSt sensor)).timer = some t →
        Ev.cancelTimer t ∈ out.evs) ∧
      (known.contains sensor.sensor_name = false →
        out.known = known ++ [sensor.sensor_name] ∧
        (enabled = true →
          Ev.discoveryCall node sensor.sensor_name "binary_sensor" ∈ out.evs))) := by
  subst hout
  constructor
  · intro hm
    have hns : newStateOf sensor st0 text = "ON" := by
      simp [newStateOf, hm]
    refine ⟨?_, ?_, ?_, ?_, ?_⟩
    · simp only [binaryStep, hm, Bool.true_or, if_true, hns]
      split <;> simp
    · simp only [binaryStep, hm, Bool.true_or, if_true, hns]
      split <;> simp
    · simp only [binaryStep, hm, Bool.true_or, if_true, hns]
      split <;> simp
    · intro t ht
      simp only [binaryStep, hm, Bool.true_or, if_true, hns, ht]
      split <;> simp
    · intro hk
      constructor
      · simp only [binaryStep, hm, Bool.true_or, if_true, hns, hk]
        split <;> simp
      · intro he
        simp only [binaryStep, hm, Bool.true_or, if_true, hns, hk, he]
        split <;> simp
  · intro hm hc
    have hns : newStateOf sensor st0 text = "OFF" := by
      simp [newStateOf, hm, hc]
    refine ⟨?_, ?_, ?_, ?_, ?_⟩
    · simp only [binaryStep, hm, hc, Bool.false_or, if_true, hns]
      split <;> simp
    · simp only [binaryStep, hm, hc, Bool.false_or, if_true, hns]
      split <;> simp
    · simp only [binaryStep, hm, hc, Bool.false_or, if_true, hns]
      split <;> simp
    · intro t ht
      simp only [binaryStep, hm, hc, Bool.false_or, if_true, hns, ht]
      split <;> simp
    · intro hk
      constructor
      · simp only [binaryStep, hm, hc, Bool.false_or, if_true, hns, hk]
        split <;> simp
      · intro he
        simp only [binaryStep, hm, hc, Bool.false_or, if_true, hns, hk, he]
        split <;> simp

/-- Witness for C2: "leak detected" turns the leak sensor ON with the packet
timestamp recorded and the retained publish emitted. -/
theorem C2_binary_transition_witness :
    (binaryStep "Mesh/feeds" "n1" leakSensor ["leak"] false none
        "leak detected" 7 1).st.value = "ON" ∧
    (binaryStep "Mesh/feeds" "n1" leakSensor ["leak"] false none
        "leak detected" 7 1).st.last_update = 7 ∧
    Ev.pub (sensorTopic "Mesh/feeds" "n1" leakSensor) (PVal.s "ON") true
      ∈ (binaryStep "Mesh/feeds" "n1" leakSensor ["leak"] false none
          "leak detected" 7 1).evs := by
  have h := (C2_binary_transition "Mesh/feeds" "n1" leakSensor ["leak"] false none
    "leak detected" 7 1 _ rfl).1 (by decide)
  exact ⟨h.1, h.2.1, h.2.2.1⟩

lemma filterNe_all_eq (L : List Nat) (t : Nat) (h : ∀ x ∈ L, x = t) :
    L.filter (fun x => ¬ x = t) = [] := by
  induction L with
  | nil => rfl
  | cons a l ih =>
      have ha : a = t := h a (List.mem_cons_self a l)
      have hl := ih (fun x hx => h x (List.mem_cons_of_mem a hx))
      simp only [List.filter_cons, ha, hl]
      simp

lemma timerOk_length (st : BinSt) (L : List Nat) (h : timerOk st L) :
    L.length ≤ 1 := by
  rcases h with ⟨hall, hnd⟩
  cases L with
  | nil => simp
  | cons a l =>
      cases l with
      | nil => simp
      | cons b l2 =>
          exfalso
          have ha := hall a (by simp)
          have hb := hall b (by simp)
          rw [ha] at hb
          have hab : a = b := Option.some.inj hb
          rw [List.nodup_cons] at hnd
          exact hnd.1 (by simp [hab])

lemma nil_of_timer_none (st : BinSt) (L : List Nat)
    (hall : ∀ x ∈ L, st.timer = some x) (hn : st.timer = none) : L = [] := by
  cases L with
  | nil => rfl
  | cons a l => exact absurd (hall a (by simp)) (by simp [hn])

/-- C3: at most one delay-off timer is outstanding per (node, sensor): whenever
the step schedules a new auto-off task while a timer is pending, the cancel of
the old timer precedes the start of the new one in the event run; the
live-timer invariant (every live timer is the one in the state, at most one)
is preserved by every step; a firing auto-off task publishes OFF (retained,
then persists) only when the state is still ON and at least delay-off has
elapsed since the last update; and the concrete two-schedules-then-fire
scenario observes exactly one OFF transition. -/
theorem C3_delay_off (prefixT node : String) (sensor : SensorDef)
    (known : List String) (enabled : Bool) (st0 : Option BinSt) (text : String)
    (rxTime : ℚ) (freshId : Nat) (live : List Nat)
    (states : List (String × List (String × BinSt))) (now : ℚ)
    (st' : List (String × List (String × BinSt))) (evs : List Ev) :
    (sensor.delay_off > 0 → newStateOf sensor st0 text = "ON" →
      ∀ t, (st0.getD (defaultBinSt sensor)).timer = some t →
      ∃ l₁ l₂,
        (binaryStep prefixT node sensor known enabled st0 text rxTime freshId).evs
          = l₁ ++ Ev.cancelTimer t ::
              Ev.startTimer freshId sensor.delay_off :: l₂) ∧
    (timerOk (st0.getD (defaultBinSt sensor)) live →
      timerOk (binaryStep prefixT node sensor known enabled st0 text rxTime freshId).st
        (applyTimerEvs live
          (binaryStep prefixT node sensor known enabled st0 text rxTime freshId).evs) ∧
      (applyTimerEvs live
        (binaryStep prefixT node sensor known enabled st0 text rxTime freshId).evs).length
          ≤ 1) ∧
    (autoOffFire prefixT node sensor states now = (st', evs) → evs ≠ [] →
      ∃ m cur, lookupA states node = some m ∧
        lookupA m sensor.sensor_name = some cur ∧
        cur.value = "ON" ∧ now - cur.last_update ≥ (sensor.delay_off : ℚ) ∧
        evs = [Ev.pub (sensorTopic prefixT node sensor) (PVal.s "OFF") true,
               Ev.saveState]) ∧
    countOffPubs (c3Fire1.2.2 ++ c3Fire2.2.2) = 1 := by
  refine ⟨?_, ?_, ?_, ?_⟩
  · intro hd hns t ht
    by_cases hm : (bmatchCond sensor text || clearedCond text) = true
    · exact ⟨_, _, by
        simp only [binaryStep, if_pos (And.intro hd hns), if_pos hm, ht]
        rw [List.append_assoc]
        exact rfl⟩
    · exact ⟨_, _, by
        simp only [binaryStep, if_pos (And.intro hd hns), if_neg hm, ht]
        rw [List.append_assoc]
        exact rfl⟩
  · intro hto
    obtain ⟨hall, hnd⟩ := hto
    have key :
        timerOk (binaryStep prefixT node sensor known enabled st0 text rxTime freshId).st
          (applyTimerEvs live
            (binaryStep prefixT node sensor known enabled st0 text rxTime freshId).evs) := by
      by_cases hsch : sensor.delay_off > 0 ∧ newStateOf sensor st0 text = "ON"
      · by_cases hm : (bmatchCond sensor text || clearedCond text) = true
        · cases ht : (st0.getD (defaultBinSt sensor)).timer with
          | some t =>
              have hL : ∀ x ∈ live, x = t := fun x hx => by
                have hx2 := hall x hx
                rw [ht] at hx2
                exact (Option.some.inj hx2).symm
              have hfil : live.filter (fun x => ¬ x = t) = [] :=
                filterNe_all_eq live t hL
              have hfil2 : List.filter (fun a => !decide (a = t)) live = [] := by
                have hp : (fun a : Nat => !decide (a = t))
                    = (fun x : Nat => decide (¬ x = t)) := by
                  funext x
                  simp [decide_not]
                rw [hp]
                exact hfil
              by_cases hk : known.contains sensor.sensor_name = true
              · simp only [binaryStep, if_pos hsch, if_pos hm, ht, hk, if_true]
                simp [applyTimerEvs, hfil, hfil2, timerOk]
              · by_cases he : enabled = true <;>
                · simp only [binaryStep, if_pos hsch, if_pos hm, ht, hk, he]
                  simp [applyTimerEvs, hfil, hfil2, timerOk]
          | none =>
              have hLnil : live = [] :=
                nil_of_timer_none (st0.getD (defaultBinSt sensor)) live hall ht
              subst hLnil
              by_cases hk : known.contains sensor.sensor_name = true
              · simp only [binaryStep, if_pos hsch, if_pos hm, ht, hk, if_true]
                simp [applyTimerEvs, timerOk]
              · by_cases he : enabled = true <;>
                · simp only [binaryStep, if_pos hsch, if_pos hm, ht, hk, he]
                  simp [applyTimerEvs, timerOk]
        · cases ht : (st0.getD (defaultBinSt sensor)).timer with
          | some t =>
              have hL : ∀ x ∈ live, x = t := fun x hx => by
                have hx2 := hall x hx
                rw [ht] at hx2
                exact (Option.some.inj hx2).symm
              have hfil : live.filter (fun x => ¬ x = t) = [] :=
                filterNe_all_eq live t hL
              have hfil2 : List.filter (fun a => !decide (a = t)) live = [] := by
                have hp : (fun a : Nat => !decide (a = t))
                    = (fun x : Nat => decide (¬ x = t)) := by
                  funext x
                  simp [decide_not]
                rw [hp]
                exact hfil
              simp only [binaryStep, if_pos hsch, if_neg hm, ht]
              simp [applyTimerEvs, hfil, hfil2, timerOk]
          | none =>
              have hLnil : live = [] :=
                nil_of_timer_none (st0.getD (defaultBinSt sensor)) live hall ht
              subst hLnil
              simp only [binaryStep, if_pos hsch, if_neg hm, ht]
              simp [applyTimerEvs, timerOk]
      · by_cases hm : (bmatchCond sensor text || clearedCond text) = true
        · cases ht : (st0.getD (defaultBinSt sensor)).timer with
          | some t =>
              have hL : ∀ x ∈ live, x = t := fun x hx => by
                have hx2 := hall x hx
                rw [ht] at hx2
                exact (Option.some.inj hx2).symm
              have hfil : live.filter (fun x => ¬ x = t) = [] :=
                filterNe_all_eq live t hL
              have hfil2 : List.filter (fun a => !decide (a = t)) live = [] := by
                have hp : (fun a : Nat => !decide (a = t))
                    = (fun x : Nat => decide (¬ x = t)) := by
                  funext x
                  simp [decide_not]
                rw [hp]
                exact hfil
              by_cases hk : known.contains sensor.sensor_name = true
              · simp only [binaryStep, if_neg hsch, if_pos hm, ht, hk, if_true]
                simp [applyTimerEvs, hfil, hfil2, timerOk]
              · by_cases he : enabled = true <;>
                · simp only [binaryStep, if_neg hsch, if_pos hm, ht, hk, he]
                  simp [applyTimerEvs, hfil, hfil2, timerOk]
          | none =>
              have hLnil : live = [] :=
                nil_of_timer_none (st0.getD (defaultBinSt sensor)) live hall ht
              subst hLnil
              by_cases hk : known.contains sensor.sensor_name = true
              · simp only [binaryStep, if_neg hsch, if_pos hm, ht, hk, if_true]
                simp [applyTimerEvs, timerOk]
              · by_cases he : enabled = true <;>
                · simp only [binaryStep, if_neg hsch, if_pos hm, ht, hk, he]
                  simp [applyTimerEvs, timerOk]
        · simp only [binaryStep, if_neg hsch, if_neg hm]
          simp only [applyTimerEvs, List.foldl_cons, List.foldl_nil, List.foldl_append]
          exact ⟨hall, hnd⟩
    exact ⟨key,
      timerOk_length (binaryStep prefixT node sensor known enabled st0 text rxTime freshId).st
        (applyTimerEvs live
          (binaryStep prefixT node sensor known enabled st0 text rxTime freshId).evs) key⟩
  · intro heq hne
    cases hmn : lookupA states node with
    | none =>
        rw [autoOffFire, hmn] at heq
        cases heq
        exact absurd rfl hne
    | some m =>
        cases hcur : lookupA m sensor.sensor_name with
        | none =>
            rw [autoOffFire, hmn] at heq
            simp only [hcur] at heq
            cases heq
            exact absurd rfl hne
        | some cur =>
            by_cases hg : cur.value = "ON" ∧ now - cur.last_update ≥ (sensor.delay_off : ℚ)
            · rw [autoOffFire, hmn] at heq
              simp only [hcur, if_pos hg] at heq
              cases heq
              exact ⟨m, cur, rfl, hcur, hg.1, hg.2, rfl⟩
            · rw [autoOffFire, hmn] at heq
              simp only [hcur, if_neg hg] at heq
              cases heq
              exact absurd rfl hne
  · have hf1 : c3Fire1 = (c3States, [2], []) := by decide
    have h2 : c3Step2.st = ⟨"ON", 2, some 2, 5⟩ := by decide
    rw [show c3Fire2 = fireTimer "Mesh/feeds" "n1" leakSensor c3States [2] 2 10 from by
      rw [c3Fire2, hf1]]
    simp only [fireTimer, autoOffFire, c3States, h2]
    norm_num [lookupA, List.find?, leakSensor, countOffPubs, hf1]

/-- Witness for C3 at the concrete leak sensor: the live-timer invariant after
one step from the empty live set, and the one-OFF scenario. -/
theorem C3_delay_off_witness :
    (timerOk (binaryStep "Mesh/feeds" "n1" leakSensor ["leak"] false none
        "leak detected" 0 1).st
      (applyTimerEvs []
        (binaryStep "Mesh/feeds" "n1" leakSensor ["leak"] false none
          "leak detected" 0 1).evs) ∧
     (applyTimerEvs []
        (binaryStep "Mesh/feeds" "n1" leakSensor ["leak"] false none
          "leak detected" 0 1).evs).length ≤ 1) ∧
    countOffPubs (c3Fire1.2.2 ++ c3Fire2.2.2) = 1 :=
  ⟨(C3_delay_off "Mesh/feeds" "n1" leakSensor ["leak"] false none "leak detected"
      0 1 [] [] 0 [] []).2.1 (by simp [timerOk]),
   (C3_delay_off "Mesh/feeds" "n1" leakSensor ["leak"] false none "leak detected"
      0 1 [] [] 0 [] []).2.2.2⟩

lemma append_underscore_inj (a : List Char) (b : List Char) :
    ∀ (c : List Char) (d : List Char), '_' ∉ a → '_' ∉ c →
      a ++ '_' :: b = c ++ '_' :: d → a = c := by
  induction a with
  | nil =>
      intro c d _ hc h
      cases c with
      | nil => rfl
      | cons x cs =>
          injection h with h1 _
          exact absurd (by rw [← h1]; exact List.mem_cons_self _ _) hc
  | cons y as ih =>
      intro c d ha hc h
      cases c with
      | nil =>
          injection h with h1 _
          exact absurd (by rw [h1]; exact List.mem_cons_self _ _) ha
      | cons x cs =>
          injection h with h1 h2
          have htail : as = cs :=
            ih cs d (fun hm => ha (List.mem_cons_of_mem _ hm))
              (fun hm => hc (List.mem_cons_of_mem _ hm)) h2
          rw [h1, htail]

/-- C8 counterexample: the node ids "!abc" and "abc" are distinct, but both
the discovery topic and the unique id derived for them coincide (sanitization
strips the "!", and with no node_info entry the display name also falls back
to the sanitized id), so (topic, unique-id) derivation is not collision-free
across nodes. -/
theorem C8_counterexample :
    ¬ ("!abc" : String) = "abc" ∧
    discoveryTopicOf "!abc" "temperature" "sensor"
      = discoveryTopicOf "abc" "temperature" "sensor" ∧
    uniqueIdOf emptyReg "!abc" "temperature"
      = uniqueIdOf emptyReg "abc" "temperature" := by
  refine ⟨by decide, ?_, ?_⟩ <;> rfl

/-- C8 amended: topic/unique-id derivation is a deterministic function of the
node id, node_info entry, key and entity kind, but collision-freedom across
nodes holds only for node ids that sanitization leaves unchanged and that
contain no underscore; under those conditions distinct node ids give distinct
discovery topics (hence distinct (topic, unique-id) pairs) for any keys and a
common entity kind. -/
theorem C8_topic_injective (n1 n2 k1 k2 et : String)
    (hs1 : sanitizeNode n1 = n1) (hs2 : sanitizeNode n2 = n2)
    (hu1 : '_' ∉ n1.data) (hu2 : '_' ∉ n2.data)
    (hne : ¬ n1 = n2) :
    ¬ discoveryTopicOf n1 k1 et = discoveryTopicOf n2 k2 et := by
  intro heq
  apply hne
  have hdata : (discoveryTopicOf n1 k1 et).data = (discoveryTopicOf n2 k2 et).data :=
    congrArg String.data heq
  unfold discoveryTopicOf at hdata
  rw [hs1, hs2] at hdata
  simp only [String.data_append, List.append_assoc] at hdata
  have h1 := List.append_cancel_left hdata
  have h2 := List.append_cancel_left h1
  have h3 := List.append_cancel_left h2
  have hmid : n1.data ++ '_' :: ((keyNorm k1).data ++ "/config".data)
      = n2.data ++ '_' :: ((keyNorm k2).data ++ "/config".data) := by
    have hc : ("_" : String).data = ['_'] := rfl
    simpa [hc] using h3
  have := append_underscore_inj n1.data ((keyNorm k1).data ++ "/config".data)
    n2.data ((keyNorm k2).data ++ "/config".data) hu1 hu2 hmid
  exact String.ext this

/-- Witness for C8 amended at two concrete identifier-safe node ids. -/
theorem C8_topic_injective_witness :
    ¬ discoveryTopicOf "abc" "temperature" "sensor"
        = discoveryTopicOf "abd" "humidity" "sensor" :=
  C8_topic_injective "abc" "abd" "temperature" "humidity" "sensor"
    rfl rfl (by decide) (by decide) (by decide)

lemma pubHA_add_sub (reg : Reg) (n k et : String) :
    ∀ t ∈ pubTopicsNE (publish_ha_discovery reg n k et false),
      t = discoveryTopicOf n k et
        ∨ t = stateTopicOf reg.prefixTopic ((lookupA reg.customs n).getD []) n k et := by
  intro t ht
  by_cases hc : reg.mqttConnected = true
  · by_cases he : n ∈ reg.enabled
    · simp only [publish_ha_discovery, hc, he] at ht
      simp [pubTopicsNE] at ht
      rcases ht with h | ⟨a, ⟨⟨-, -⟩, ha⟩, hmatch⟩
      · exact Or.inl h
      · subst ha
        by_cases hi : PVal.s (initialStateOf reg n k) = PVal.s ""
        · simp [hi] at hmatch
        · simp [hi] at hmatch
          exact Or.inr hmatch.symm
    · simp [publish_ha_discovery, hc, he, pubTopicsNE] at ht
  · simp [publish_ha_discovery, Bool.not_eq_true, hc, pubTopicsNE] at ht

lemma pubHA_remove_topics (reg : Reg) (n k et : String)
    (hc : reg.mqttConnected = true) :
    pubTopicsEmpty (publish_ha_discovery reg n k et true)
      = [discoveryTopicOf n k et,
         stateTopicOf reg.prefixTopic ((lookupA reg.customs n).getD []) n k et,
         buttonTopicOf n] := by
  simp [publish_ha_discovery, hc, pubTopicsEmpty]

lemma pubTopicsNE_append (l1 l2 : List Ev) :
    pubTopicsNE (l1 ++ l2) = pubTopicsNE l1 ++ pubTopicsNE l2 := by
  simp [pubTopicsNE]

lemma pubTopicsEmpty_append (l1 l2 : List Ev) :
    pubTopicsEmpty (l1 ++ l2) = pubTopicsEmpty l1 ++ pubTopicsEmpty l2 := by
  simp [pubTopicsEmpty]

lemma mem_pubTopicsEmpty_flatten {α : Type} (f : α → List Ev) (L : List α)
    (x : α) (t : String) (hx : x ∈ L) (ht : t ∈ pubTopicsEmpty (f x)) :
    t ∈ pubTopicsEmpty ((L.map f).flatten) := by
  simp only [pubTopicsEmpty, List.mem_filterMap] at ht ⊢
  obtain ⟨e, he, hme⟩ := ht
  refine ⟨e, ?_, hme⟩
  rw [List.mem_flatten]
  exact ⟨f x, List.mem_map_of_mem f hx, he⟩

lemma mem_pubTopicsNE_flatten {α : Type} (f : α → List Ev) (L : List α)
    (t : String) (ht : t ∈ pubTopicsNE ((L.map f).flatten)) :
    ∃ x ∈ L, t ∈ pubTopicsNE (f x) := by
  simp only [pubTopicsNE, List.mem_filterMap] at ht
  obtain ⟨e, he, hme⟩ := ht
  rw [List.mem_flatten] at he
  obtain ⟨l, hl, hel⟩ := he
  obtain ⟨x, hx, rfl⟩ := List.mem_map.mp hl
  refine ⟨x, hx, ?_⟩
  simp only [pubTopicsNE, List.mem_filterMap]
  exact ⟨e, hel, hme⟩

lemma mem_addNames_mono {α : Type} (nameOf : α → String) (defs : List α)
    (k : List String) (x : String) (hx : x ∈ k) : x ∈ addNames nameOf defs k := by
  induction defs generalizing k with
  | nil => exact hx
  | cons a l ih =>
      simp only [addNames, List.foldl_cons]
      have hx' : x ∈ (if k.contains (nameOf a) then k else k ++ [nameOf a]) := by
        split
        · exact hx
        · exact List.mem_append_left _ hx
      exact ih _ hx'

lemma mem_addNames_self {α : Type} (nameOf : α → String) (defs : List α)
    (k : List String) (a : α) (ha : a ∈ defs) :
    nameOf a ∈ addNames nameOf defs k := by
  induction defs generalizing k with
  | nil => cases ha
  | cons b l ih =>
      rcases List.mem_cons.mp ha with h | h
      · subst h
        simp only [addNames, List.foldl_cons]
        have hmem : nameOf a ∈ (if k.contains (nameOf a) then k else k ++ [nameOf a]) := by
          split
          · next hcon => simpa using hcon
          · exact List.mem_append_right _ (List.mem_cons_self _ _)
        exact mem_addNames_mono nameOf l _ _ hmem
      · simp only [addNames, List.foldl_cons]
        exact ih _ h

lemma mapLower_numericKeys : numericKeysL.map lowerS = numericKeysL := by decide

lemma numericKeys_lower_fixed : ∀ x ∈ numericKeysL, lowerS x = x := by decide

lemma C5_core (regE : Reg) (node : String) (E : List String)
    (hc : regE.mqttConnected = true) :
    (∀ t ∈ pubTopicsNE (trigger_body regE node true).2,
       t ∈ pubTopicsEmpty
         (trigger_body { (trigger_body regE node true).1 with enabled := E }
            node false).2) ∧
    (trigger_body { (trigger_body regE node true).1 with enabled := E }
        node false).1.known
      = (trigger_body regE node true).1.known := by
  refine ⟨?_, rfl⟩
  intro t ht
  obtain ⟨K, ⟨hKpos, hKnum⟩, hreg1⟩ :
      ∃ K, ("position" ∈ K ∧
        ∀ k ∈ (numericKeysL.map lowerS).filter
            (fun k => ((lookupA regE.known node).getD []).contains k), k ∈ K) ∧
        (trigger_body regE node true).1
          = { regE with known := insertA regE.known node K } := by
    refine ⟨if (lookupA regE.customs node).isSome then
        pruneKnown (((lookupA regE.customs node).getD []).map (fun s => s.sensor_name))
          (((lookupA regE.commands node).getD []).map (fun c => c.command_name))
          (addNames (fun c => c.command_name) ((lookupA regE.commands node).getD [])
            (addNames (fun s => s.sensor_name) ((lookupA regE.customs node).getD [])
              (if ((lookupA regE.known node).getD []).contains "position" then
                (lookupA regE.known node).getD []
               else (lookupA regE.known node).getD [] ++ ["position"])))
      else addNames (fun c => c.command_name) ((lookupA regE.commands node).getD [])
          (addNames (fun s => s.sensor_name) ((lookupA regE.customs node).getD [])
            (if ((lookupA regE.known node).getD []).contains "position" then
              (lookupA regE.known node).getD []
             else (lookupA regE.known node).getD [] ++ ["position"])), ⟨?_, ?_⟩, rfl⟩
    · -- "position" survives to the final known set
      have hp1 : "position" ∈ (if ((lookupA regE.known node).getD []).contains "position" then
          (lookupA regE.known node).getD []
        else (lookupA regE.known node).getD [] ++ ["position"]) := by
        split
        · next hcon => simpa using hcon
        · exact List.mem_append_right _ (List.mem_cons_self _ _)
      have hp2 := mem_addNames_mono (fun s : SensorDef => s.sensor_name)
        ((lookupA regE.customs node).getD []) _ _ hp1
      have hp3 := mem_addNames_mono (fun c : CommandDef => c.command_name)
        ((lookupA regE.commands node).getD []) _ _ hp2
      split
      · rw [pruneKnown, List.mem_filter]
        exact ⟨hp3, by simp⟩
      · exact hp3
    · -- every published numeric key survives to the final known set
      intro k hk
      rw [List.mem_filter] at hk
      obtain ⟨hknum, hkcon⟩ := hk
      rw [mapLower_numericKeys] at hknum
      have hk0 : k ∈ (lookupA regE.known node).getD [] := by simpa using hkcon
      have hp1 : k ∈ (if ((lookupA regE.known node).getD []).contains "position" then
          (lookupA regE.known node).getD []
        else (lookupA regE.known node).getD [] ++ ["position"]) := by
        split
        · exact hk0
        · exact List.mem_append_left _ hk0
      have hp2 := mem_addNames_mono (fun s : SensorDef => s.sensor_name)
        ((lookupA regE.customs node).getD []) _ _ hp1
      have hp3 := mem_addNames_mono (fun c : CommandDef => c.command_name)
        ((lookupA regE.commands node).getD []) _ _ hp2
      split
      · rw [pruneKnown, List.mem_filter]
        refine ⟨hp3, ?_⟩
        have hlk : lowerS k = k := numericKeys_lower_fixed k hknum
        simp only [hlk]
        simp
        exact Or.inl (Or.inr hknum)
      · exact hp3
  have htb2 : (trigger_body regE node true).2
      = (((numericKeysL.map lowerS).filter
            (fun k => ((lookupA regE.known node).getD []).contains k)).map
           (fun k => publish_ha_discovery regE node k (entityForKey k) false)).flatten
        ++ publish_ha_discovery regE node "position" "device_tracker" false
        ++ (((lookupA regE.customs node).getD []).map
            (fun s => publish_ha_discovery regE node s.sensor_name
              (entityForSensor s) false)).flatten
        ++ (((lookupA regE.commands node).getD []).map
            (fun c => publish_ha_discovery regE node c.command_name
              (entityForCommand c) false)).flatten := rfl
  rw [hreg1]
  have htd2 : (trigger_body
        { { regE with known := insertA regE.known node K } with enabled := E }
        node false).2
      = ((((lookupA (insertA regE.known node K) node).getD []).map
            (fun k => publish_ha_discovery
              { { regE with known := insertA regE.known node K } with enabled := E }
              node k (entityForKey k) true)).flatten
        ++ (((lookupA regE.customs node).getD []).map
            (fun s => publish_ha_discovery
              { { regE with known := insertA regE.known node K } with enabled := E }
              node s.sensor_name (entityForSensor s) true)).flatten
        ++ (((lookupA regE.commands node).getD []).map
            (fun c => publish_ha_discovery
              { { regE with known := insertA regE.known node K } with enabled := E }
              node c.command_name (entityForCommand c) true)).flatten) := rfl
  have hcD : ({ { regE with known := insertA regE.known node K }
      with enabled := E } : Reg).mqttConnected = true := hc
  rw [htd2, lookupA_insertA_self, Option.getD_some]
  rw [htb2, pubTopicsNE_append, pubTopicsNE_append, pubTopicsNE_append] at ht
  rw [pubTopicsEmpty_append, pubTopicsEmpty_append]
  rcases List.mem_append.mp ht with h123 | h4
  · rcases List.mem_append.mp h123 with h12 | h3
    · rcases List.mem_append.mp h12 with h1 | h2
      · -- numeric telemetry keys
        obtain ⟨k, hkmem, htk⟩ := mem_pubTopicsNE_flatten _ _ _ h1
        have hsub := pubHA_add_sub regE node k (entityForKey k) t htk
        refine List.mem_append.mpr (Or.inl (List.mem_append.mpr (Or.inl ?_)))
        refine mem_pubTopicsEmpty_flatten _ K k t (hKnum k hkmem) ?_
        rw [pubHA_remove_topics _ node k (entityForKey k) hcD]
        rcases hsub with h | h
        · rw [h]
          exact List.mem_cons_self _ _
        · rw [h]
          exact List.mem_cons_of_mem _ (List.mem_cons_self _ _)
      · -- the position tracker
        have hsub := pubHA_add_sub regE node "position" "device_tracker" t h2
        refine List.mem_append.mpr (Or.inl (List.mem_append.mpr (Or.inl ?_)))
        refine mem_pubTopicsEmpty_flatten _ K "position" t hKpos ?_
        rw [pubHA_remove_topics _ node "position" (entityForKey "position") hcD]
        rcases hsub with h | h
        · rw [h]
          exact List.mem_cons_self _ _
        · rw [h]
          exact List.mem_cons_of_mem _ (List.mem_cons_self _ _)
    · -- custom sensors
      obtain ⟨s, hsmem, hts⟩ := mem_pubTopicsNE_flatten _ _ _ h3
      have hsub := pubHA_add_sub regE node s.sensor_name (entityForSensor s) t hts
      refine List.mem_append.mpr (Or.inl (List.mem_append.mpr (Or.inr ?_)))
      refine mem_pubTopicsEmpty_flatten _ _ s t hsmem ?_
      rw [pubHA_remove_topics _ node s.sensor_name (entityForSensor s) hcD]
      rcases hsub with h | h
      · rw [h]
        exact List.mem_cons_self _ _
      · rw [h]
        exact List.mem_cons_of_mem _ (List.mem_cons_self _ _)
  · -- commands
    obtain ⟨c, hcmem, htc⟩ := mem_pubTopicsNE_flatten _ _ _ h4
    have hsub := pubHA_add_sub regE node c.command_name (entityForCommand c) t htc
    refine List.mem_append.mpr (Or.inr ?_)
    refine mem_pubTopicsEmpty_flatten _ _ c t hcmem ?_
    rw [pubHA_remove_topics _ node c.command_name (entityForCommand c) hcD]
    rcases hsub with h | h
    · rw [h]
      exact List.mem_cons_self _ _
    · rw [h]
      exact List.mem_cons_of_mem _ (List.mem_cons_self _ _)

lemma tb_known_isSome (regX : Reg) (node : String) (E : List String) :
    (lookupA ({ (trigger_body regX node true).1 with enabled := E }).known
      node).isSome = true := by
  simp only [trigger_body]
  simp [lookupA_insertA_self]

/-- C5 counterexample: a node with empty KnownKeys and no definitions;
enabling then immediately disabling it leaves KnownKeys = {"position"} — the
enable pass adds "position" and the disable pass keeps it — so KnownKeys is
not restored to its pre-enable value. -/
theorem C5_counterexample :
    lookupA c5Reg.known "n1" = some [] ∧
    lookupA ((disableNode (enableNode c5Reg "n1").1 "n1").1.known) "n1"
      = some ["position"] := by
  decide

/-- C5 amended: with MQTT connected, enabling then immediately disabling a
node leaves zero residual records — every topic the enable pass publishes
with a non-empty payload receives an empty retained publish from the disable
pass — and the disable pass does not mutate KnownKeys; KnownKeys after the
pair equals the value left by the enable pass (which may add "position" and
definition names and prune stale keys), not necessarily its pre-enable
value. -/
theorem C5_enable_disable (reg : Reg) (node : String)
    (hc : reg.mqttConnected = true) :
    (∀ t ∈ pubTopicsNE (enableNode reg node).2,
        t ∈ pubTopicsEmpty (disableNode (enableNode reg node).1 node).2) ∧
    (disableNode (enableNode reg node).1 node).1.known
      = (enableNode reg node).1.known := by
  simp only [enableNode, disableNode, trigger_ha_discovery]
  rw [if_pos (tb_known_isSome _ node _)]
  exact C5_core _ node _ (by split <;> exact hc)

/-- Witness for C5 amended at the concrete one-node registry: the position
discovery record added by enable is retracted by disable, and disable leaves
KnownKeys as enable left it. -/
theorem C5_enable_disable_witness :
    discoveryTopicOf "n1" "position" "device_tracker"
        ∈ pubTopicsEmpty (disableNode (enableNode c5Reg "n1").1 "n1").2 ∧
    (disableNode (enableNode c5Reg "n1").1 "n1").1.known
      = (enableNode c5Reg "n1").1.known :=
  ⟨(C5_enable_disable c5Reg "n1" rfl).1 _ (by decide),
   (C5_enable_disable c5Reg "n1" rfl).2⟩
